import Mathlib

/-!
Verification of the ANASAR hospital-management client: the consultation form
engine (derived vitals, section operations, follow-up quick picks, submit
pipeline) and the authentication/session lifecycle (session store, sign-in,
sign-out, route guard), shallowly embedded from the TypeScript sources
`src/pages/consultation/ConsultationPage.tsx`, `src/store/auth.ts`,
`src/components/auth/ProtectedRoute.tsx` and the `useAuth` hook.

JavaScript numbers are modelled as rationals where only field arithmetic and
comparisons occur, and as reals where `Math.sqrt` is involved.  Backend calls
(supabase) report failures as returned error values, never as thrown
exceptions; they are therefore modelled as value parameters describing the
call's outcome.
-/

/-! ## Derived vitals (ConsultationPage.tsx, BMI/BSA effect)

The effect runs on every change of `weight`/`height`:
`if (watchedWeight && watchedHeight) { ... setValue('bmi', Math.round(bmi*10)/10);
setValue('bsa', Math.round(bsa*100)/100) }`.  JavaScript truthiness makes the
guard fail when either value is absent or zero. -/

/-- JavaScript `Math.round`: round half toward positive infinity. -/
noncomputable def jsRound (x : ℝ) : ℤ := ⌊x + 1 / 2⌋

/-- `Math.round(x * 10) / 10`, i.e. rounding to one decimal place. -/
noncomputable def roundTo1 (x : ℝ) : ℝ := (jsRound (x * 10) : ℝ) / 10

/-- `Math.round(x * 100) / 100`, i.e. rounding to two decimal places. -/
noncomputable def roundTo2 (x : ℝ) : ℝ := (jsRound (x * 100) : ℝ) / 100

/-- The vitals slice of the consultation form that the BMI/BSA effect reads
and writes: `weight`, `height` and the derived `bmi`, `bsa` fields. -/
@[ext]
structure VitalsState where
  weight : Option ℝ
  height : Option ℝ
  bmi : Option ℝ
  bsa : Option ℝ

/-- The BMI/BSA `useEffect` of `ConsultationPage`: when both `weight` and
`height` are present and truthy (nonzero), it sets
`bmi := Math.round((w / (h/100)^2) * 10) / 10` and
`bsa := Math.round(Math.sqrt(w * h / 3600) * 100) / 100`; otherwise it leaves
the form untouched. -/
noncomputable def recomputeDerivedVitals (s : VitalsState) : VitalsState :=
  match s.weight, s.height with
  | some w, some h =>
    if w = 0 ∨ h = 0 then s
    else
      let heightInMeters := h / 100
      { s with
        bmi := some (roundTo1 (w / (heightInMeters * heightInMeters))),
        bsa := some (roundTo2 (Real.sqrt (w * h / 3600))) }
  | _, _ => s

/-- Concrete vitals slice used to instantiate the derived-vitals theorem. -/
noncomputable def demoVitals : VitalsState :=
  { weight := some 70, height := some 175, bmi := none, bsa := none }

/-! ## Consultation form data model (ConsultationPage.tsx, zod schema)

Numeric form fields are optional JavaScript numbers, modelled as `Option ℚ`
(no square roots occur in validation or submission). -/

/-- A symptom entry as appended by `addSymptom`: name, severity, duration. -/
structure Symptom where
  name : String
  severity : String
  duration : String
deriving DecidableEq, Repr

/-- Diagnosis type enum of the zod schema: `primary` or `secondary`. -/
inductive DiagnosisType where
  | primary
  | secondary
deriving DecidableEq, Repr

/-- A diagnosis entry: ICD code, display name, primary/secondary type. -/
structure Diagnosis where
  code : String
  name : String
  type : DiagnosisType
deriving DecidableEq, Repr

/-- A medication (prescription line) entry. -/
structure Medication where
  type : String
  name : String
  dose : String
  frequency : String
  duration : String
  quantity : String
  instruction : String
deriving DecidableEq, Repr

/-- Investigation kind enum of the zod schema: `lab` or `radiology`. -/
inductive InvestigationKind where
  | lab
  | radiology
deriving DecidableEq, Repr

/-- An investigation entry: kind, test name, urgency, instructions. -/
structure Investigation where
  type : InvestigationKind
  name : String
  urgency : String
  instructions : String
deriving DecidableEq, Repr

/-- An advice entry: category and free text. -/
structure Advice where
  category : String
  text : String
deriving DecidableEq, Repr

/-- The consultation form values (`ConsultationForm` = `z.infer` of
`consultationSchema`): optional numeric vitals, the five entry lists, the
follow-up fields and the notes fields. -/
structure ConsultationForm where
  weight : Option ℚ
  height : Option ℚ
  bmi : Option ℚ
  bsa : Option ℚ
  systolic : Option ℚ
  diastolic : Option ℚ
  pulse : Option ℚ
  temperature : Option ℚ
  spo2 : Option ℚ
  symptoms : List Symptom
  diagnosis : List Diagnosis
  medications : List Medication
  investigations : List Investigation
  advice : List Advice
  followUpDate : Option String
  followUpDuration : Option String
  clinicalNotes : Option String
  treatmentPlan : Option String
deriving DecidableEq, Repr

/-- A zod `z.number().min(lo).max(hi).optional()` check: absence is valid,
presence requires `lo ≤ v ≤ hi`. -/
def inRangeOpt (lo hi : ℚ) : Option ℚ → Bool
  | none => true
  | some v => decide (lo ≤ v) && decide (v ≤ hi)

/-- The numeric constraints of `consultationSchema`: weight ∈ [0,500],
height ∈ [0,300], systolic ∈ [50,300], diastolic ∈ [30,200], pulse ∈ [30,200],
temperature ∈ [90,110], spo2 ∈ [70,100]; `bmi`/`bsa` and all list and string
fields are unconstrained. -/
def validateConsultation (f : ConsultationForm) : Bool :=
  inRangeOpt 0 500 f.weight &&
  inRangeOpt 0 300 f.height &&
  inRangeOpt 50 300 f.systolic &&
  inRangeOpt 30 200 f.diastolic &&
  inRangeOpt 30 200 f.pulse &&
  inRangeOpt 90 110 f.temperature &&
  inRangeOpt 70 100 f.spo2

/-! ## Submit pipeline (ConsultationPage.tsx, `onSubmit`) -/

/-- The `vital_signs` object written by `onSubmit`. -/
structure VitalSignsPatch where
  weight : Option ℚ
  height : Option ℚ
  bmi : Option ℚ
  bsa : Option ℚ
  blood_pressure : Option String
  pulse : Option ℚ
  temperature : Option ℚ
  spo2 : Option ℚ
deriving DecidableEq, Repr

/-- The `prescription` object written by `onSubmit`. -/
structure Prescription where
  medications : List Medication
  investigations : List Investigation
  advice : List Advice
deriving DecidableEq, Repr

/-- The update patch `onSubmit` issues against the `appointments` table. -/
structure AppointmentPatch where
  status : String
  vital_signs : VitalSignsPatch
  symptoms : List Symptom
  diagnosis : String
  prescription : Prescription
  follow_up_date : Option String
  notes : Option String
deriving DecidableEq, Repr

/-- `data.systolic && data.diastolic ? `$\x7bdata.systolic\x7d/$\x7bdata.diastolic\x7d` : null`:
the string is produced only when both numbers are present and truthy
(nonzero); otherwise the persisted value is null. -/
def bloodPressureString : Option ℚ → Option ℚ → Option String
  | some s, some d =>
    if s = 0 ∨ d = 0 then none else some (toString s ++ "/" ++ toString d)
  | _, _ => none

/-- The patch built by `onSubmit`: status becomes `completed`, vitals are
copied (with the combined blood-pressure string), diagnosis names are joined
with a comma, the prescription bundles medications, investigations and
advice, and follow-up date and clinical notes are copied. -/
def buildAppointmentPatch (f : ConsultationForm) : AppointmentPatch :=
  { status := "completed",
    vital_signs :=
      { weight := f.weight, height := f.height, bmi := f.bmi, bsa := f.bsa,
        blood_pressure := bloodPressureString f.systolic f.diastolic,
        pulse := f.pulse, temperature := f.temperature, spo2 := f.spo2 },
    symptoms := f.symptoms,
    diagnosis := String.intercalate ", " (f.diagnosis.map Diagnosis.name),
    prescription :=
      { medications := f.medications, investigations := f.investigations,
        advice := f.advice },
    follow_up_date := f.followUpDate,
    notes := f.clinicalNotes }

/-- The submit pipeline: `handleSubmit` runs the zod resolver first and calls
`onSubmit` only when validation succeeds; `onSubmit` additionally returns
without writing when the appointment id, hospital id or user is missing
(`ctx`).  The result is the update patch issued to the appointment store, or
`none` when no backend write happens. -/
def submitConsultation (ctx : Bool) (f : ConsultationForm) :
    Option AppointmentPatch :=
  if validateConsultation f then
    if ctx then some (buildAppointmentPatch f) else none
  else none

/-! ## Form engine section operations (ConsultationPage.tsx, add/remove) -/

/-- The form-engine state visible to the add operations: the form values plus
the five search-input states. -/
structure EngineState where
  form : ConsultationForm
  symptomSearch : String
  diagnosisSearch : String
  medicationSearch : String
  labSearch : String
  radiologySearch : String
deriving DecidableEq, Repr

/-- `addSymptom(symptomName)`: appends `{name, severity: 'Mild', duration:
'1 day'}` and clears the symptom search input. -/
def addSymptom (st : EngineState) (symptomName : String) : EngineState :=
  { st with
    form := { st.form with
      symptoms := st.form.symptoms ++
        [{ name := symptomName, severity := "Mild", duration := "1 day" }] },
    symptomSearch := "" }

/-- `addDiagnosis(diagnosis)`: appends `{code, name, type: 'primary'}` and
clears the diagnosis search input. -/
def addDiagnosis (st : EngineState) (code name : String) : EngineState :=
  { st with
    form := { st.form with
      diagnosis := st.form.diagnosis ++
        [{ code := code, name := name, type := DiagnosisType.primary }] },
    diagnosisSearch := "" }

/-- The fixed entry appended by `addMedication`. -/
def defaultMedication : Medication :=
  { type := "Tablet", name := "", dose := "", frequency := "BD",
    duration := "5 days", quantity := "10", instruction := "After food" }

/-- `addMedication()`: appends the fixed default medication line. -/
def addMedication (st : EngineState) : EngineState :=
  { st with
    form := { st.form with
      medications := st.form.medications ++ [defaultMedication] } }

/-- `addLabInvestigation(testName)`: appends `{type: 'lab', name, urgency:
'Routine', instructions: ''}` and clears the lab search input. -/
def addLabInvestigation (st : EngineState) (testName : String) : EngineState :=
  { st with
    form := { st.form with
      investigations := st.form.investigations ++
        [{ type := InvestigationKind.lab, name := testName,
           urgency := "Routine", instructions := "" }] },
    labSearch := "" }

/-- `addRadiologyInvestigation(testName)`: appends `{type: 'radiology', name,
urgency: 'Routine', instructions: ''}` and clears the radiology search
input. -/
def addRadiologyInvestigation (st : EngineState) (testName : String) :
    EngineState :=
  { st with
    form := { st.form with
      investigations := st.form.investigations ++
        [{ type := InvestigationKind.radiology, name := testName,
           urgency := "Routine", instructions := "" }] },
    radiologySearch := "" }

/-- `useFieldArray`'s `remove(index)`: removes the entry at the given
position, keeping the remaining entries in order (no-op past the end). -/
def removeEntry {α : Type} (xs : List α) (i : ℕ) : List α := xs.eraseIdx i

/-- `removeMedication(index)` applied to the engine state. -/
def removeMedication (st : EngineState) (i : ℕ) : EngineState :=
  { st with
    form := { st.form with
      medications := removeEntry st.form.medications i } }

/-! ## Follow-up quick picks (ConsultationPage.tsx, quick-pick onClick)

The handler mutates a fresh `new Date()` with `setDate`/`setMonth` and stores
`date.toISOString().split('T')[0]`.  JavaScript dates are modelled as
calendar dates (year, 0-based month, 1-based day); `setDate`/`setMonth`
normalize an overflowing day-of-month into the following month exactly as the
Date object does for the offsets used here (at most one month of carry). -/

/-- A JavaScript calendar date: year, 0-based month index, 1-based day. -/
structure CalDate where
  year : ℤ
  month : ℕ
  day : ℕ
deriving DecidableEq, Repr

/-- Gregorian leap-year rule used by the Date object. -/
def isLeap (y : ℤ) : Bool := (y % 4 = 0 && y % 100 != 0) || y % 400 = 0

/-- Days in a 0-based month of a given year. -/
def daysInMonth (y : ℤ) (m : ℕ) : ℕ :=
  [31, if isLeap y then 29 else 28, 31, 30, 31, 30, 31, 31, 30, 31, 30,
   31].getD m 31

/-- One carry step of Date normalization: a day-of-month past the end of the
month rolls into the following month (sufficient for a single `setDate`
(+7/+14) or `setMonth` call on a valid date, whose overflow never exceeds one
month). -/
def carryDay (d : CalDate) : CalDate :=
  if d.day ≤ daysInMonth d.year d.month then d
  else
    let rest := d.day - daysInMonth d.year d.month
    if d.month = 11 then { year := d.year + 1, month := 0, day := rest }
    else { year := d.year, month := d.month + 1, day := rest }

/-- `date.setDate(n)`: replace the day-of-month, normalizing overflow. -/
def setDate (d : CalDate) (n : ℕ) : CalDate :=
  carryDay { d with day := n }

/-- `date.setDate(date.getDate() + n)`. -/
def addDays (d : CalDate) (n : ℕ) : CalDate := setDate d (d.day + n)

/-- `date.setMonth(m)`: months past December spill into later years; the
day-of-month is kept and normalized by overflow. -/
def setMonth (d : CalDate) (m : ℕ) : CalDate :=
  carryDay { year := d.year + (m / 12 : ℕ), month := m % 12, day := d.day }

/-- `date.setMonth(date.getMonth() + n)`: calendar month increment. -/
def addMonths (d : CalDate) (n : ℕ) : CalDate := setMonth d (d.month + n)

/-- Left-pad a numeral to two digits, as in an ISO date string. -/
def pad2 (n : ℕ) : String :=
  if n < 10 then "0" ++ toString n else toString n

/-- `date.toISOString().split('T')[0]`: the `YYYY-MM-DD` date part (the month
is printed 1-based). -/
def isoDateString (d : CalDate) : String :=
  toString d.year ++ "-" ++ pad2 (d.month + 1) ++ "-" ++ pad2 d.day

/-- The quick-pick duration onClick handler: starting from today, `1 week`
and `2 weeks` add 7 and 14 days, `1 month`, `3 months` and `6 months` add 1,
3 and 6 calendar months; every label except `As needed` stores the resulting
ISO date in `followUpDate`, and the label itself is always stored in
`followUpDuration`. -/
def applyFollowUpQuickPick (duration : String) (today : CalDate)
    (f : ConsultationForm) : ConsultationForm :=
  let date :=
    if duration = "1 week" then addDays today 7
    else if duration = "2 weeks" then addDays today 14
    else if duration = "1 month" then addMonths today 1
    else if duration = "3 months" then addMonths today 3
    else if duration = "6 months" then addMonths today 6
    else today
  let f1 :=
    if duration ≠ "As needed" then
      { f with followUpDate := some (isoDateString date) }
    else f
  { f1 with followUpDuration := some duration }

/-! ## Session store (store/auth.ts) and auth lifecycle (useAuth hook)

Backend (supabase) calls resolve with an error *value* (`\x7b error \x7d`)
rather than throwing, so each call's outcome is a value parameter of the
modelled operation; where the source discards that value, so does the
model. -/

/-- A row of the `users` table, restricted to the fields the session logic
reads. -/
structure AuthUser where
  id : String
  hospital_id : Option String
  role : String
  is_active : Bool
deriving DecidableEq, Repr

/-- A backend auth session token with its expiry (epoch seconds). -/
structure SessionTok where
  access_token : String
  expires_at : ℤ
deriving DecidableEq, Repr

/-- The zustand auth store state: user profile, session, loading flag,
hospital id and the authentication flag. -/
structure AuthStoreState where
  user : Option AuthUser
  session : Option SessionTok
  loading : Bool
  hospitalId : Option String
  isAuthenticated : Bool
deriving DecidableEq, Repr

/-- The store's creation-time state. -/
def initialAuthState : AuthStoreState :=
  { user := none, session := none, loading := true, hospitalId := none,
    isAuthenticated := false }

/-- JavaScript `x || null` on an optional string: null, undefined and the
empty string collapse to null. -/
def orNull : Option String → Option String
  | none => none
  | some s => if s = "" then none else some s

/-- Result of `signIn` as returned to the caller. -/
inductive SignInResult where
  | ok
  | err (msg : String)
deriving DecidableEq, Repr

/-- The combined outcome of the backend calls made during `signIn`: the
credential check (`auth.signIn`), the profile fetch, and the last-login
update (whose error value, if any, the source discards). -/
inductive SignInBackend where
  | authErr (msg : String)
  | noUser
  | profileErr (uid : String) (session : SessionTok)
  | ok (profile : AuthUser) (session : SessionTok) (lastLoginError : Option String)

/-- `signIn` of the auth store: sets `loading := true`, then on credential
and profile success stores the profile, session, hospital id and the
authentication flag, performs the last-login write (ignoring its result) and
returns success; each failure path returns the corresponding error without
touching the rest of the state (only the `catch` branch would reset
`loading`, and value-level errors never throw).  The Boolean component
records whether the last-login write was issued. -/
def signInStore : SignInBackend → AuthStoreState →
    AuthStoreState × SignInResult × Bool
  | .authErr msg, s => ({ s with loading := true }, .err msg, false)
  | .noUser, s => ({ s with loading := true }, .err "Authentication failed", false)
  | .profileErr _ _, s =>
      ({ s with loading := true }, .err "Failed to fetch user profile", false)
  | .ok profile session _, s =>
      ({ s with
          user := some profile, session := some session,
          hospitalId := profile.hospital_id, isAuthenticated := true,
          loading := false },
       .ok, true)

/-- `signOut` of the auth store: the backend sign-out result value is
discarded and every session field is reset. -/
def signOutStore (_backendError : Option String) (_s : AuthStoreState) :
    AuthStoreState :=
  { user := none, session := none, hospitalId := none,
    isAuthenticated := false, loading := false }

/-- Outcome of the backend calls made during the store's `initialize`. -/
inductive InitBackend where
  | noSession
  | profileErr (session : SessionTok)
  | ok (session : SessionTok) (profile : AuthUser)

/-- `initialize` of the auth store: recovers the persisted backend session;
on session and profile success stores them and sets the authentication flag;
`loading` ends false on every path. -/
def initAuthStore : InitBackend → AuthStoreState → AuthStoreState
  | .noSession, s => { s with loading := false }
  | .profileErr _, s => { s with loading := false }
  | .ok session profile, s =>
      { s with
        user := some profile, session := some session,
        hospitalId := profile.hospital_id, isAuthenticated := true,
        loading := false }

/-- `setUser` of the auth store: stores the profile, recomputes
`hospitalId := user?.hospital_id || null` and `isAuthenticated := !!user`. -/
def setUserStore (u : Option AuthUser) (s : AuthStoreState) : AuthStoreState :=
  { s with
    user := u,
    hospitalId := orNull (u.bind AuthUser.hospital_id),
    isAuthenticated := u.isSome }

/-- `setSession` of the auth store. -/
def setSessionStore (sess : Option SessionTok) (s : AuthStoreState) :
    AuthStoreState :=
  { s with session := sess }

/-- `setLoading` of the auth store. -/
def setLoadingStore (b : Bool) (s : AuthStoreState) : AuthStoreState :=
  { s with loading := b }

/-- The snapshot the persist middleware writes (its `partialize` keeps only
`user`, `hospitalId` and `isAuthenticated`; the session is not persisted). -/
structure PersistedSnapshot where
  user : Option AuthUser
  hospitalId : Option String
  isAuthenticated : Bool
deriving DecidableEq, Repr

/-- The persist middleware's projection of the store state. -/
def persistSnapshot (s : AuthStoreState) : PersistedSnapshot :=
  { user := s.user, hospitalId := s.hospitalId,
    isAuthenticated := s.isAuthenticated }

/-- Rehydration of a persisted snapshot at store creation: the persisted keys
are merged over the initial state (the session stays absent and `loading`
keeps its initial value). -/
def hydrateSnapshot (p : PersistedSnapshot) : AuthStoreState :=
  { initialAuthState with
    user := p.user, hospitalId := p.hospitalId,
    isAuthenticated := p.isAuthenticated }

/-- One session-store operation, with the outcomes of its backend calls. -/
inductive AuthOp where
  | signIn (outcome : SignInBackend)
  | signOut (backendError : Option String)
  | initStore (outcome : InitBackend)
  | setUser (u : Option AuthUser)
  | setSession (sess : Option SessionTok)
  | setLoading (b : Bool)

/-- The state transition of one session-store operation. -/
def authStep (s : AuthStoreState) : AuthOp → AuthStoreState
  | .signIn outcome => (signInStore outcome s).1
  | .signOut e => signOutStore e s
  | .initStore outcome => initAuthStore outcome s
  | .setUser u => setUserStore u s
  | .setSession sess => setSessionStore sess s
  | .setLoading b => setLoadingStore b s

/-- The session-store states reachable from creation through any sequence of
store operations, including a reload that rehydrates the snapshot persisted
from an earlier reachable state. -/
inductive Reachable : AuthStoreState → Prop
  | init : Reachable initialAuthState
  | step {s : AuthStoreState} (op : AuthOp) : Reachable s → Reachable (authStep s op)
  | restore {s : AuthStoreState} : Reachable s →
      Reachable (hydrateSnapshot (persistSnapshot s))

/-- The client-visible auth state: the store plus the `auth-storage`
localStorage entry maintained by the persist middleware. -/
structure ClientAuthState where
  store : AuthStoreState
  storage : Option PersistedSnapshot
deriving DecidableEq, Repr

/-- The `useAuth` hook's `signOut`: `setLoading(true)`, the store's
`signOut` (which never throws: the backend result is a value), then
`localStorage.removeItem('auth-storage')` and a forced navigation to
`/login`.  The Boolean component records that the navigation happened. -/
def useAuthSignOut (backendError : Option String) (c : ClientAuthState) :
    ClientAuthState × Bool :=
  let s1 := setLoadingStore true c.store
  let s2 := signOutStore backendError s1
  ({ store := s2, storage := none }, true)

/-- A demonstration user profile for concrete instantiations. -/
def demoUser : AuthUser :=
  { id := "u1", hospital_id := some "h1", role := "nurse", is_active := true }

/-- The store state reached from creation by a single `setUser` with a
profile: authenticated, yet holding no session token. -/
def stateAfterSetUser : AuthStoreState :=
  authStep initialAuthState (.setUser (some demoUser))

/-! ## Route guard (components/auth/ProtectedRoute.tsx) -/

/-- The `requiredRole` prop: a single role name or a list of role names. -/
inductive RoleReq where
  | single (r : String)
  | multiple (rs : List String)
deriving DecidableEq, Repr

/-- `Array.isArray(requiredRole) ? requiredRole : [requiredRole]`. -/
def rolesOf : RoleReq → List String
  | .single r => [r]
  | .multiple rs => rs

/-- The inputs `ProtectedRoute` reads: the auth hook state, the current
location, and the `requiredRole`/`fallbackPath` props. -/
structure GuardInput where
  loading : Bool
  sessionChecked : Bool
  isAuthenticated : Bool
  user : Option AuthUser
  hospitalId : Option String
  requiredRole : Option RoleReq
  fallbackPath : String
  currentPath : String
deriving DecidableEq, Repr

/-- What `ProtectedRoute` renders. -/
inductive GuardResult where
  | loadingView
  | redirectToLogin (target fromPath : String)
  | accountDeactivated
  | setupRequired
  | accessDenied (requiredRoles : List String)
  | content
deriving DecidableEq, Repr

/-- JavaScript truthiness of an optional string (`!hospitalId` is true for
null, undefined and the empty string). -/
def strTruthy : Option String → Bool
  | none => false
  | some s => s != ""

/-- `ProtectedRoute`, gate by gate in source order: loading check,
authentication check (redirecting with the requested path preserved in
`state.from`), account-active check, hospital-association check, then the
role check; when every gate passes, the guarded content renders. -/
def protectedRoute (inp : GuardInput) : GuardResult :=
  if inp.loading || !inp.sessionChecked then .loadingView
  else if !inp.isAuthenticated then
    .redirectToLogin inp.fallbackPath inp.currentPath
  else
    match inp.user with
    | none => .redirectToLogin inp.fallbackPath inp.currentPath
    | some u =>
      if !u.is_active then .accountDeactivated
      else if !(strTruthy inp.hospitalId) then .setupRequired
      else
        match inp.requiredRole with
        | none => .content
        | some req =>
          if u.role ∈ rolesOf req then .content
          else .accessDenied (rolesOf req)

/-- Whether a guard outcome performs a navigation (only the login redirect
does; the denied views merely render and offer a button). -/
def guardNavigates : GuardResult → Bool
  | .redirectToLogin _ _ => true
  | _ => false

/-- The guard input for an authenticated, active nurse with a hospital
association requesting an admin-only route. -/
def nurseOnAdminRoute : GuardInput :=
  { loading := false, sessionChecked := true, isAuthenticated := true,
    user := some demoUser, hospitalId := some "h1",
    requiredRole := some (.multiple ["admin", "hospital_admin"]),
    fallbackPath := "/login", currentPath := "/doctors" }

/-! ## Concrete instances used by witnesses -/

/-- A consultation form with every optional field absent and every list
empty (the form's default values). -/
def emptyForm : ConsultationForm :=
  { weight := none, height := none, bmi := none, bsa := none, systolic := none,
    diastolic := none, pulse := none, temperature := none, spo2 := none,
    symptoms := [], diagnosis := [], medications := [], investigations := [],
    advice := [], followUpDate := none, followUpDuration := none,
    clinicalNotes := none, treatmentPlan := none }

/-- A valid form carrying systolic 120 and diastolic 80. -/
def bpDemoForm : ConsultationForm :=
  { emptyForm with systolic := some 120, diastolic := some 80 }

/-- A concrete date (15 January 2026) used to instantiate the follow-up
quick-pick theorem. -/
def demoToday : CalDate := { year := 2026, month := 0, day := 15 }

/-- Some vitals field carries a value outside its declared range: weight
outside [0,500], height outside [0,300], systolic outside [50,300],
diastolic outside [30,200], pulse outside [30,200], temperature outside
[90,110] or oxygen saturation outside [70,100]. -/
def vitalsOutOfRange (f : ConsultationForm) : Prop :=
  (∃ v, f.weight = some v ∧ ¬(0 ≤ v ∧ v ≤ 500)) ∨
  (∃ v, f.height = some v ∧ ¬(0 ≤ v ∧ v ≤ 300)) ∨
  (∃ v, f.systolic = some v ∧ ¬(50 ≤ v ∧ v ≤ 300)) ∨
  (∃ v, f.diastolic = some v ∧ ¬(30 ≤ v ∧ v ≤ 200)) ∨
  (∃ v, f.pulse = some v ∧ ¬(30 ≤ v ∧ v ≤ 200)) ∨
  (∃ v, f.temperature = some v ∧ ¬(90 ≤ v ∧ v ≤ 110)) ∨
  (∃ v, f.spo2 = some v ∧ ¬(70 ≤ v ∧ v ≤ 100))

/-! ## Theorems -/

/-- Recomputing derived vitals never changes the weight and height inputs. -/
theorem recomputeDerivedVitals_preserves_inputs (s : VitalsState) :
    (recomputeDerivedVitals s).weight = s.weight ∧
    (recomputeDerivedVitals s).height = s.height := by
  obtain ⟨ws, hs, b0, a0⟩ := s
  cases ws with
  | none => exact ⟨rfl, rfl⟩
  | some w =>
    cases hs with
    | none => exact ⟨rfl, rfl⟩
    | some h =>
      by_cases hc : w = 0 ∨ h = 0
      · simp only [recomputeDerivedVitals, if_pos hc]
        constructor <;> trivial
      · simp only [recomputeDerivedVitals, if_neg hc]
        constructor <;> trivial

/-- Recomputing derived vitals is idempotent. -/
theorem recomputeDerivedVitals_idem (s : VitalsState) :
    recomputeDerivedVitals (recomputeDerivedVitals s) = recomputeDerivedVitals s := by
  obtain ⟨ws, hs, b0, a0⟩ := s
  cases ws with
  | none => rfl
  | some w =>
    cases hs with
    | none => rfl
    | some h =>
      by_cases hc : w = 0 ∨ h = 0
      · simp only [recomputeDerivedVitals, if_pos hc]
      · simp only [recomputeDerivedVitals, if_neg hc]

/-- C1: for weight w ∈ (0,500] and height h ∈ (0,300] both set on the form,
the derived bodyMassIndex is w/(h/100)² rounded to one decimal and the
derived bodySurfaceArea is sqrt(w·h/3600) rounded to two decimals, and
recomputing with the same inputs yields the same derived values
(recomputation is idempotent). -/
theorem recomputeDerivedVitals_correct (w h : ℝ) (s : VitalsState)
    (hw0 : 0 < w) (_hw : w ≤ 500) (hh0 : 0 < h) (_hh : h ≤ 300)
    (hsw : s.weight = some w) (hsh : s.height = some h) :
    (recomputeDerivedVitals s).bmi = some (roundTo1 (w / (h / 100) ^ 2)) ∧
    (recomputeDerivedVitals s).bsa = some (roundTo2 (Real.sqrt (w * h / 3600))) ∧
    recomputeDerivedVitals (recomputeDerivedVitals s) = recomputeDerivedVitals s := by
  have hc : ¬(w = 0 ∨ h = 0) := by
    push_neg
    exact ⟨ne_of_gt hw0, ne_of_gt hh0⟩
  obtain ⟨ws, hgt, b0, a0⟩ := s
  simp only at hsw hsh
  subst hsw hsh
  refine ⟨?_, ?_, recomputeDerivedVitals_idem _⟩
  · simp only [recomputeDerivedVitals, if_neg hc]
    rw [pow_two]
  · simp only [recomputeDerivedVitals, if_neg hc]

/-- Witness: the derived-vitals theorem applied at weight 70, height 175. -/
theorem recomputeDerivedVitals_correct_witness :
    (recomputeDerivedVitals demoVitals).bmi =
      some (roundTo1 (70 / ((175 : ℝ) / 100) ^ 2)) ∧
    (recomputeDerivedVitals demoVitals).bsa =
      some (roundTo2 (Real.sqrt (70 * 175 / 3600))) ∧
    recomputeDerivedVitals (recomputeDerivedVitals demoVitals) =
      recomputeDerivedVitals demoVitals :=
  recomputeDerivedVitals_correct 70 175 demoVitals (by norm_num) (by norm_num)
    (by norm_num) (by norm_num) rfl rfl

/-- A present value violating the range check makes `inRangeOpt` false. -/
theorem inRangeOpt_false {lo hi v : ℚ} (h : ¬(lo ≤ v ∧ v ≤ hi)) :
    inRangeOpt lo hi (some v) = false := by
  rcases not_and_or.mp h with h1 | h1 <;> simp [inRangeOpt, h1]

/-- C2: a consultation record whose weight is 1000 (outside [0,500]) — or
more generally any record carrying a vitals value outside its declared
range — fails validation at submit time, and no update call is issued to
the backend appointment store. -/
theorem submit_out_of_range_rejected (ctx : Bool) (f : ConsultationForm)
    (h : f.weight = some 1000 ∨ vitalsOutOfRange f) :
    validateConsultation f = false ∧ submitConsultation ctx f = none := by
  have hval : validateConsultation f = false := by
    rcases h with hw | hout
    · have : ¬((0 : ℚ) ≤ 1000 ∧ (1000 : ℚ) ≤ 500) := by norm_num
      simp [validateConsultation, hw, inRangeOpt_false this]
    · rcases hout with ⟨v, hv, hr⟩ | ⟨v, hv, hr⟩ | ⟨v, hv, hr⟩ | ⟨v, hv, hr⟩ |
        ⟨v, hv, hr⟩ | ⟨v, hv, hr⟩ | ⟨v, hv, hr⟩ <;>
        simp [validateConsultation, hv, inRangeOpt_false hr]
  exact ⟨hval, by simp [submitConsultation, hval]⟩

/-- Witness: the out-of-range theorem applied to a form with weight 1000. -/
theorem submit_out_of_range_rejected_witness :
    validateConsultation { emptyForm with weight := some 1000 } = false ∧
    submitConsultation true { emptyForm with weight := some 1000 } = none :=
  submit_out_of_range_rejected true { emptyForm with weight := some 1000 }
    (Or.inl rfl)

/-- C3: from every starting client state, the `useAuth` sign-out clears the
in-memory session state (user, session, hospitalId and the authentication
flag are all reset), removes the persisted `auth-storage` snapshot, and
navigates to the login entry point — also when the backend sign-out call
fails with an error value (the source discards the call's result). -/
theorem signOut_clears_state_and_snapshot (e : Option String)
    (c : ClientAuthState) :
    (useAuthSignOut e c).1.store.user = none ∧
    (useAuthSignOut e c).1.store.session = none ∧
    (useAuthSignOut e c).1.store.hospitalId = none ∧
    (useAuthSignOut e c).1.store.isAuthenticated = false ∧
    (useAuthSignOut e c).1.storage = none ∧
    (useAuthSignOut e c).2 = true :=
  ⟨rfl, rfl, rfl, rfl, rfl, rfl⟩

/-- C9: when the credential check and profile fetch succeed, `signIn`
updates the session store to the signed-in state, issues the last-login
write, and returns success — independently of the last-login write's error
value, which the source ignores (fire-and-forget). -/
theorem signIn_lastLogin_fire_and_forget (profile : AuthUser)
    (session : SessionTok) (e : Option String) (s : AuthStoreState) :
    (signInStore (.ok profile session e) s).2.1 = .ok ∧
    (signInStore (.ok profile session e) s).2.2 = true ∧
    (signInStore (.ok profile session e) s).1 =
      { s with user := some profile, session := some session,
               hospitalId := profile.hospital_id, isAuthenticated := true,
               loading := false } ∧
    signInStore (.ok profile session e) s =
      signInStore (.ok profile session none) s :=
  ⟨rfl, rfl, rfl, rfl⟩

/-- C4 counterexample: the state reached from creation by a single `setUser`
with a profile is authenticated while holding no session token at all, so
"isAuthenticated iff a non-expired token and a profile are both present"
fails on a reachable state (`setUser` and snapshot rehydration never consult
the token). -/
theorem auth_token_invariant_counterexample :
    Reachable stateAfterSetUser ∧
    stateAfterSetUser.isAuthenticated = true ∧
    stateAfterSetUser.session = none ∧
    ¬(stateAfterSetUser.isAuthenticated = true ↔
        (∃ sess, stateAfterSetUser.session = some sess) ∧
        stateAfterSetUser.user ≠ none) := by
  refine ⟨Reachable.step (.setUser (some demoUser)) Reachable.init, rfl, rfl, ?_⟩
  intro hiff
  obtain ⟨⟨sess, hsess⟩, -⟩ := hiff.mp rfl
  exact Option.noConfusion hsess

/-- C4 (amended): in every reachable state of the session store,
isAuthenticated is true iff a fetched user profile is present; the session
token and its expiry are never consulted. -/
theorem isAuthenticated_iff_user_present (s : AuthStoreState)
    (h : Reachable s) : s.isAuthenticated = true ↔ s.user ≠ none := by
  induction h with
  | init => simp [initialAuthState]
  | step op _ ih =>
    cases op with
    | signIn outcome =>
      cases outcome with
      | authErr msg => simpa [authStep, signInStore] using ih
      | noUser => simpa [authStep, signInStore] using ih
      | profileErr uid sess => simpa [authStep, signInStore] using ih
      | ok p sess e => simp [authStep, signInStore]
    | signOut e => simp [authStep, signOutStore]
    | initStore outcome =>
      cases outcome with
      | noSession => simpa [authStep, initAuthStore] using ih
      | profileErr sess => simpa [authStep, initAuthStore] using ih
      | ok sess p => simp [authStep, initAuthStore]
    | setUser u => cases u <;> simp [authStep, setUserStore]
    | setSession sess => simpa [authStep, setSessionStore] using ih
    | setLoading b => simpa [authStep, setLoadingStore] using ih
  | restore _ ih =>
    simpa [hydrateSnapshot, persistSnapshot, initialAuthState] using ih

/-- Witness: the amended session-store invariant at the creation state. -/
theorem isAuthenticated_iff_user_present_witness :
    initialAuthState.isAuthenticated = true ↔ initialAuthState.user ≠ none :=
  isAuthenticated_iff_user_present initialAuthState Reachable.init

/-- A form that passes validation has its systolic value (when present) in
[50,300]. -/
theorem validate_systolic_range {f : ConsultationForm} {a : ℚ}
    (hval : validateConsultation f = true) (ha : f.systolic = some a) :
    50 ≤ a ∧ a ≤ 300 := by
  simp only [validateConsultation, Bool.and_eq_true] at hval
  obtain ⟨⟨⟨⟨⟨⟨h1, h2⟩, h3⟩, h4⟩, h5⟩, h6⟩, h7⟩ := hval
  rw [ha] at h3
  simpa [inRangeOpt] using h3

/-- A form that passes validation has its diastolic value (when present) in
[30,200]. -/
theorem validate_diastolic_range {f : ConsultationForm} {b : ℚ}
    (hval : validateConsultation f = true) (hb : f.diastolic = some b) :
    30 ≤ b ∧ b ≤ 200 := by
  simp only [validateConsultation, Bool.and_eq_true] at hval
  obtain ⟨⟨⟨⟨⟨⟨h1, h2⟩, h3⟩, h4⟩, h5⟩, h6⟩, h7⟩ := hval
  rw [hb] at h4
  simpa [inRangeOpt] using h4

/-- C5: submitting a valid record issues one update patch; with systolic 120
and diastolic 80 the persisted vital_signs.blood_pressure is "120/80" — in
general the string systolic/diastolic — and when either value is omitted the
persisted blood_pressure is null. -/
theorem submit_blood_pressure (f : ConsultationForm)
    (hval : validateConsultation f = true) :
    (buildAppointmentPatch bpDemoForm).vital_signs.blood_pressure =
      some "120/80" ∧
    submitConsultation true f = some (buildAppointmentPatch f) ∧
    (∀ a b, f.systolic = some a → f.diastolic = some b →
      (buildAppointmentPatch f).vital_signs.blood_pressure =
        some (toString a ++ "/" ++ toString b)) ∧
    ((f.systolic = none ∨ f.diastolic = none) →
      (buildAppointmentPatch f).vital_signs.blood_pressure = none) := by
  refine ⟨rfl, by simp [submitConsultation, hval], ?_, ?_⟩
  · intro a b ha hb
    have hra := validate_systolic_range hval ha
    have hrb := validate_diastolic_range hval hb
    have hnz : ¬(a = 0 ∨ b = 0) := by
      push_neg
      constructor
      · intro h0
        rw [h0] at hra
        norm_num at hra
      · intro h0
        rw [h0] at hrb
        norm_num at hrb
    simp [buildAppointmentPatch, bloodPressureString, ha, hb, if_neg hnz]
  · intro hc
    rcases hc with hs | hd
    · simp [buildAppointmentPatch, bloodPressureString, hs]
    · cases hsy : f.systolic <;>
        simp [buildAppointmentPatch, bloodPressureString, hsy, hd]

/-- Witness: the blood-pressure theorem applied to the valid form with
systolic 120 and diastolic 80. -/
theorem submit_blood_pressure_witness :
    (buildAppointmentPatch bpDemoForm).vital_signs.blood_pressure =
      some "120/80" ∧
    submitConsultation true bpDemoForm = some (buildAppointmentPatch bpDemoForm) ∧
    (∀ a b, bpDemoForm.systolic = some a → bpDemoForm.diastolic = some b →
      (buildAppointmentPatch bpDemoForm).vital_signs.blood_pressure =
        some (toString a ++ "/" ++ toString b)) ∧
    ((bpDemoForm.systolic = none ∨ bpDemoForm.diastolic = none) →
      (buildAppointmentPatch bpDemoForm).vital_signs.blood_pressure = none) :=
  submit_blood_pressure bpDemoForm rfl

/-- C6: on a record with no prior follow-up date, the quick picks map
"1 week"/"2 weeks" to today plus 7/14 days, "1 month"/"3 months"/"6 months"
to today plus 1/3/6 calendar months (Date month arithmetic, not a fixed day
count), each storing the resulting date and its label; "As needed" stores
only the label and leaves followUpDate unset.  Concretely, one calendar
month after 15 January 2026 is 15 February 2026 — a 31-day jump, different
from adding 30 days. -/
theorem followUp_quick_pick (today : CalDate) (f : ConsultationForm)
    (hf : f.followUpDate = none) :
    (applyFollowUpQuickPick "1 month" today f).followUpDate =
        some (isoDateString (addMonths today 1)) ∧
    (applyFollowUpQuickPick "1 month" today f).followUpDuration =
        some "1 month" ∧
    (applyFollowUpQuickPick "As needed" today f).followUpDate = none ∧
    (applyFollowUpQuickPick "As needed" today f).followUpDuration =
        some "As needed" ∧
    (applyFollowUpQuickPick "1 week" today f).followUpDate =
        some (isoDateString (addDays today 7)) ∧
    (applyFollowUpQuickPick "2 weeks" today f).followUpDate =
        some (isoDateString (addDays today 14)) ∧
    (applyFollowUpQuickPick "3 months" today f).followUpDate =
        some (isoDateString (addMonths today 3)) ∧
    (applyFollowUpQuickPick "6 months" today f).followUpDate =
        some (isoDateString (addMonths today 6)) ∧
    isoDateString (addMonths demoToday 1) = "2026-02-15" ∧
    addMonths demoToday 1 ≠ addDays demoToday 30 :=
  ⟨rfl, rfl, hf, rfl, rfl, rfl, rfl, rfl, rfl, by decide⟩

/-- Witness: the quick-pick theorem applied on 15 January 2026 to the empty
form. -/
theorem followUp_quick_pick_witness :
    (applyFollowUpQuickPick "1 month" demoToday emptyForm).followUpDate =
        some (isoDateString (addMonths demoToday 1)) ∧
    (applyFollowUpQuickPick "1 month" demoToday emptyForm).followUpDuration =
        some "1 month" ∧
    (applyFollowUpQuickPick "As needed" demoToday emptyForm).followUpDate =
        none ∧
    (applyFollowUpQuickPick "As needed" demoToday emptyForm).followUpDuration =
        some "As needed" ∧
    (applyFollowUpQuickPick "1 week" demoToday emptyForm).followUpDate =
        some (isoDateString (addDays demoToday 7)) ∧
    (applyFollowUpQuickPick "2 weeks" demoToday emptyForm).followUpDate =
        some (isoDateString (addDays demoToday 14)) ∧
    (applyFollowUpQuickPick "3 months" demoToday emptyForm).followUpDate =
        some (isoDateString (addMonths demoToday 3)) ∧
    (applyFollowUpQuickPick "6 months" demoToday emptyForm).followUpDate =
        some (isoDateString (addMonths demoToday 6)) ∧
    isoDateString (addMonths demoToday 1) = "2026-02-15" ∧
    addMonths demoToday 1 ≠ addDays demoToday 30 :=
  followUp_quick_pick demoToday emptyForm rfl

/-- Appending an element and erasing at the old length restores the list. -/
theorem eraseIdx_append_singleton {α : Type} (xs : List α) (x : α) :
    (xs ++ [x]).eraseIdx xs.length = xs := by
  induction xs with
  | nil => rfl
  | cons a as ih => simp [List.eraseIdx_cons_succ, ih]

/-- C7: appending a medication entry and then removing it by its position
restores the medication list exactly; in general `removeEntry` keeps the
remaining entries of any section in their original relative order (it is
take-before ++ drop-after). -/
theorem medication_add_remove_roundtrip :
    (∀ st : EngineState,
      (removeMedication (addMedication st)
          st.form.medications.length).form.medications =
        st.form.medications) ∧
    (∀ (α : Type) (xs : List α) (i : ℕ),
      removeEntry xs i = xs.take i ++ xs.drop (i + 1)) := by
  constructor
  · intro st
    simp only [removeMedication, addMedication, removeEntry]
    exact eraseIdx_append_singleton st.form.medications defaultMedication
  · intro α xs i
    exact List.eraseIdx_eq_take_drop_succ xs i

/-- C8: the route guard evaluates its gates in the fixed source order —
loading, authentication, account-active, hospital-association, role
membership — short-circuiting at the first failing gate; an authenticated,
active, hospital-associated user whose role is outside the route's required
set is shown access-denied (a go-back view), which performs no navigation.
Concretely, a nurse on the admin-only route gets access-denied. -/
theorem protectedRoute_gate_order :
    (∀ inp : GuardInput,
      inp.loading = true ∨ inp.sessionChecked = false →
      protectedRoute inp = .loadingView) ∧
    (∀ inp : GuardInput,
      inp.loading = false → inp.sessionChecked = true →
      inp.isAuthenticated = false ∨ inp.user = none →
      protectedRoute inp = .redirectToLogin inp.fallbackPath inp.currentPath) ∧
    (∀ (inp : GuardInput) (u : AuthUser),
      inp.loading = false → inp.sessionChecked = true →
      inp.isAuthenticated = true → inp.user = some u → u.is_active = false →
      protectedRoute inp = .accountDeactivated) ∧
    (∀ (inp : GuardInput) (u : AuthUser),
      inp.loading = false → inp.sessionChecked = true →
      inp.isAuthenticated = true → inp.user = some u → u.is_active = true →
      strTruthy inp.hospitalId = false →
      protectedRoute inp = .setupRequired) ∧
    (∀ (inp : GuardInput) (u : AuthUser) (req : RoleReq),
      inp.loading = false → inp.sessionChecked = true →
      inp.isAuthenticated = true → inp.user = some u → u.is_active = true →
      strTruthy inp.hospitalId = true → inp.requiredRole = some req →
      u.role ∉ rolesOf req →
      protectedRoute inp = .accessDenied (rolesOf req)) ∧
    (∀ (inp : GuardInput) (u : AuthUser),
      inp.loading = false → inp.sessionChecked = true →
      inp.isAuthenticated = true → inp.user = some u → u.is_active = true →
      strTruthy inp.hospitalId = true →
      (inp.requiredRole = none ∨
        ∃ req, inp.requiredRole = some req ∧ u.role ∈ rolesOf req) →
      protectedRoute inp = .content) ∧
    protectedRoute nurseOnAdminRoute =
      .accessDenied ["admin", "hospital_admin"] ∧
    guardNavigates (protectedRoute nurseOnAdminRoute) = false := by
  refine ⟨?_, ?_, ?_, ?_, ?_, ?_, rfl, rfl⟩
  · intro inp h
    rcases h with h | h <;> simp [protectedRoute, h]
  · intro inp hl hc h
    rcases h with h | h <;> simp [protectedRoute, hl, hc, h]
  · intro inp u hl hc ha hu hact
    simp [protectedRoute, hl, hc, ha, hu, hact]
  · intro inp u hl hc ha hu hact hh
    simp [protectedRoute, hl, hc, ha, hu, hact, hh]
  · intro inp u req hl hc ha hu hact hh hreq hrole
    simp [protectedRoute, hl, hc, ha, hu, hact, hh, hreq, hrole]
  · intro inp u hl hc ha hu hact hh hok
    rcases hok with h | ⟨req, hreq, hin⟩ <;>
      simp [protectedRoute, hl, hc, ha, hu, hact, hh, *]

/-- C10: each add operation fills in fixed defaults — `addSymptom` appends
severity "Mild" and duration "1 day", `addDiagnosis` appends type primary,
and the lab/radiology adders append urgency "Routine" with empty
instructions — and each clears its triggering search input. -/
theorem add_operations_defaults (st : EngineState)
    (symptomName code dname testName : String) :
    (addSymptom st symptomName).form.symptoms =
      st.form.symptoms ++
        [{ name := symptomName, severity := "Mild", duration := "1 day" }] ∧
    (addSymptom st symptomName).symptomSearch = "" ∧
    (addDiagnosis st code dname).form.diagnosis =
      st.form.diagnosis ++
        [{ code := code, name := dname, type := .primary }] ∧
    (addDiagnosis st code dname).diagnosisSearch = "" ∧
    (addLabInvestigation st testName).form.investigations =
      st.form.investigations ++
        [{ type := .lab, name := testName, urgency := "Routine",
           instructions := "" }] ∧
    (addLabInvestigation st testName).labSearch = "" ∧
    (addRadiologyInvestigation st testName).form.investigations =
      st.form.investigations ++
        [{ type := .radiology, name := testName, urgency := "Routine",
           instructions := "" }] ∧
    (addRadiologyInvestigation st testName).radiologySearch = "" :=
  ⟨rfl, rfl, rfl, rfl, rfl, rfl, rfl, rfl⟩
